import Mathlib

/-!
Verification of the CBSvC traffic-scenario subsystem.

Shallow embedding of src/scenarios/weather.py, src/scenarios/traffic.py and
src/scenarios/scenario.py. Python object mutation is modelled by explicit
state passing; the Python aliasing of WeatherManager.current_weather to one
of the four preset attributes is modelled by a slot pointer, so that a
mutation through current_weather is a mutation of the aliased preset slot,
exactly as in CPython. Exceptions are modelled by an Option String channel,
log output by a list of log messages. Numeric weather fields only ever hold
values on which Python float arithmetic is exact, so they are embedded as
Int.
-/

/-- Enumeration TimeOfDay from weather.py. -/
inductive TimeOfDay where
  | NOON
  | NIGHT
deriving DecidableEq, Repr

/-- Enumeration WeatherType from weather.py. -/
inductive WeatherType where
  | CLEAR
  | FOGGY
  | RAINY
  | CLOUDY
deriving DecidableEq, Repr

/-- A Python argument that is supposed to be a WeatherType member: either an
actual member or some other object, identified by its repr string. -/
inductive WeatherTypeInput where
  | valid (w : WeatherType)
  | invalid (s : String)
deriving DecidableEq, Repr

/-- A Python argument that is supposed to be a TimeOfDay member. -/
inductive TimeOfDayInput where
  | valid (t : TimeOfDay)
  | invalid (s : String)
deriving DecidableEq, Repr

/-- The fields of carla.WeatherParameters that the weather manager reads or
writes. -/
structure WeatherParameters where
  sun_azimuth_angle : Int
  sun_altitude_angle : Int
  fog_density : Int
  fog_distance : Int
  fog_falloff : Int
deriving DecidableEq, Repr

/-- A log line emitted through the logging module. -/
inductive LogMsg where
  | error (msg : String)
  | warning (msg : String)
deriving DecidableEq, Repr

/-- State of a WeatherManager instance (weather.py). current_weather is a
reference to one of the four preset attributes (or None); it is modelled as
a pointer naming the aliased slot. weather_type and time_of_day store the
arguments as given, valid or not. -/
structure WeatherManager where
  clear_weather : WeatherParameters
  cloudy_weather : WeatherParameters
  rainy_weather : WeatherParameters
  foggy_weather : WeatherParameters
  current_weather : Option WeatherType
  weather_type : Option WeatherTypeInput
  time_of_day : Option TimeOfDayInput
deriving DecidableEq, Repr

/-- Result of a WeatherManager method call: the post state, the log lines
emitted, and the exception raised, if any. -/
structure SetResult where
  state : WeatherManager
  logs : List LogMsg
  exn : Option String
deriving DecidableEq, Repr

/-- WeatherManager.__init__: the three noon presets come from the carla
library (external constants, taken as parameters); the foggy preset is built
in the constructor from the clear preset sun angles with fog_density 40. -/
def WeatherManager.init (clearNoon cloudyNoon hardRainNoon : WeatherParameters) :
    WeatherManager :=
  { clear_weather := clearNoon
    cloudy_weather := cloudyNoon
    rainy_weather := hardRainNoon
    foggy_weather :=
      { sun_azimuth_angle := clearNoon.sun_azimuth_angle
        sun_altitude_angle := clearNoon.sun_altitude_angle
        fog_density := 40
        fog_distance := 1
        fog_falloff := 1 }
    current_weather := none
    weather_type := none
    time_of_day := none }

/-- Dereference current_weather: the parameters object it aliases, if set. -/
def WeatherManager.currentParams (m : WeatherManager) : Option WeatherParameters :=
  match m.current_weather with
  | none => none
  | some WeatherType.CLEAR => some m.clear_weather
  | some WeatherType.CLOUDY => some m.cloudy_weather
  | some WeatherType.RAINY => some m.rainy_weather
  | some WeatherType.FOGGY => some m.foggy_weather

/-- Mutate the parameters object that current_weather aliases (a no-op when
current_weather is None). This is how an assignment through
self.current_weather acts on the underlying preset attribute in Python. -/
def WeatherManager.updateCurrentParams (m : WeatherManager)
    (f : WeatherParameters → WeatherParameters) : WeatherManager :=
  match m.current_weather with
  | none => m
  | some WeatherType.CLEAR => { m with clear_weather := f m.clear_weather }
  | some WeatherType.CLOUDY => { m with cloudy_weather := f m.cloudy_weather }
  | some WeatherType.RAINY => { m with rainy_weather := f m.rainy_weather }
  | some WeatherType.FOGGY => { m with foggy_weather := f m.foggy_weather }

/-- WeatherManager.set_weather: stores weather_type first, then the chain of
comparisons selects the preset to alias; an unrecognized value reaches the
final else and raises ValueError, after the store. -/
def WeatherManager.set_weather (m : WeatherManager) (wt : WeatherTypeInput) :
    SetResult :=
  let m1 : WeatherManager := { m with weather_type := some wt }
  match wt with
  | WeatherTypeInput.valid w =>
      { state := { m1 with current_weather := some w }, logs := [], exn := none }
  | WeatherTypeInput.invalid s =>
      { state := m1, logs := [], exn := some ("Invalid weather type " ++ s) }

/-- WeatherManager.set_time_of_day: early logged return when current_weather
is None; otherwise stores time_of_day, then mutates the aliased parameters
object: NOON sets sun altitude +90, NIGHT sets it -90 and additionally adds
20 to fog density when weather_type is FOGGY; an unrecognized value raises
ValueError after the store. -/
def WeatherManager.set_time_of_day (m : WeatherManager) (t : TimeOfDayInput) :
    SetResult :=
  match m.current_weather with
  | none =>
      { state := m
        logs := [LogMsg.error "Set weather before setting time of day"]
        exn := none }
  | some _ =>
      let m1 : WeatherManager := { m with time_of_day := some t }
      match t with
      | TimeOfDayInput.valid TimeOfDay.NOON =>
          { state := m1.updateCurrentParams fun p => { p with sun_altitude_angle := 90 }
            logs := []
            exn := none }
      | TimeOfDayInput.valid TimeOfDay.NIGHT =>
          let m2 := m1.updateCurrentParams fun p => { p with sun_altitude_angle := -90 }
          let m3 :=
            if m2.weather_type = some (WeatherTypeInput.valid WeatherType.FOGGY) then
              m2.updateCurrentParams fun p => { p with fog_density := p.fog_density + 20 }
            else m2
          { state := m3, logs := [], exn := none }
      | TimeOfDayInput.invalid s =>
          { state := m1, logs := [], exn := some ("Invalid time of day " ++ s) }

/-- carla.VehicleLightState.LowBeam (external constant 0x2). -/
def VehicleLightLowBeam : Nat := 2

/-- carla.VehicleLightState.Fog (external constant 0x80). -/
def VehicleLightFog : Nat := 128

/-- WeatherManager.set_car_lights acting on one vehicle light mask: reads
the current mask, ORs in the weather bits, writes it back. With no weather
set it returns early and leaves the mask untouched; a stored value that
matches no branch rewrites the mask unchanged (a falsy invalid object would
return early instead, with the same resulting mask). -/
def WeatherManager.set_car_lights (m : WeatherManager) (light_mask : Nat) : Nat :=
  match m.weather_type with
  | none => light_mask
  | some wt =>
      if wt = WeatherTypeInput.valid WeatherType.FOGGY then
        light_mask ||| (VehicleLightFog ||| VehicleLightLowBeam)
      else if wt = WeatherTypeInput.valid WeatherType.RAINY then
        light_mask ||| VehicleLightLowBeam
      else light_mask

/-- Fog density of the parameters object current_weather aliases. -/
def WeatherManager.currentFogDensity (m : WeatherManager) : Option Int :=
  m.currentParams.map fun p => p.fog_density

/-- Sun altitude of the parameters object current_weather aliases. -/
def WeatherManager.currentSunAltitude (m : WeatherManager) : Option Int :=
  m.currentParams.map fun p => p.sun_altitude_angle

/-- One round of the re-entrant sequence set_weather(FOGGY);
set_time_of_day(NIGHT). -/
def foggyNightOnce (m : WeatherManager) : WeatherManager :=
  ((m.set_weather (WeatherTypeInput.valid WeatherType.FOGGY)).state.set_time_of_day
    (TimeOfDayInput.valid TimeOfDay.NIGHT)).state

/-- The sequence set_weather(FOGGY); set_time_of_day(NIGHT) repeated n times. -/
def foggyNightIter (m : WeatherManager) : Nat → WeatherManager
  | 0 => m
  | n + 1 => foggyNightOnce (foggyNightIter m n)

/-- Stand-in values for the external carla noon preset constants; the fields
are irrelevant to every property proved below, which either quantifies over
the presets or only touches fields the constructor or the methods write. -/
def sampleNoonPreset : WeatherParameters :=
  { sun_azimuth_angle := 0
    sun_altitude_angle := 75
    fog_density := 2
    fog_distance := 0
    fog_falloff := 0 }

/-- A freshly constructed WeatherManager over the sample presets. -/
def sampleManager : WeatherManager :=
  WeatherManager.init sampleNoonPreset sampleNoonPreset sampleNoonPreset

/-- Enumeration Scenario from scenario.py (named ScenarioKind here). -/
inductive ScenarioKind where
  | default
  | night
  | overspeeding
  | distracted
  | congestion
deriving DecidableEq, Repr

/-- The four enable flags passed to set_aggressive_behavior, in positional
order (en_lane_change, en_ignore_light, en_ignore_signs, en_overspeed). -/
structure BehaviorMask where
  en_lane_change : Bool
  en_ignore_light : Bool
  en_ignore_signs : Bool
  en_overspeed : Bool
deriving DecidableEq, Repr

/-- The four independent coin tosses drawn at the top of
set_aggressive_behavior, one per trait. -/
structure Coins where
  lane_change : Bool
  ignore_light : Bool
  ignore_signs : Bool
  overspeed : Bool
deriving DecidableEq, Repr

/-- The traffic-manager effects set_aggressive_behavior applies to one
vehicle: whether a forced lane change was issued, and the percentage values
passed to the ignore-lights, ignore-signs and speed-difference calls, when
made. -/
structure AppliedEffects where
  forced_lane_change : Bool
  ignore_lights_percent : Option Int
  ignore_signs_percent : Option Int
  speed_diff_percent : Option Int
deriving DecidableEq, Repr

/-- TrafficGenerator.set_aggressive_behavior (traffic.py): each enabled
trait fires when its coin toss lands true; the fired effects use the fixed
class constants IGNORE_LIGHTS_PERCENT = 100, IGNORE_SIGNS_PERCENT = 100,
SPEED_DIFF_PERCENT = -20. -/
def set_aggressive_behavior (coins : Coins)
    (en_lane_change en_ignore_light en_ignore_signs en_overspeed : Bool) :
    AppliedEffects :=
  { forced_lane_change := en_lane_change && coins.lane_change
    ignore_lights_percent :=
      if en_ignore_light && coins.ignore_light then some 100 else none
    ignore_signs_percent :=
      if en_ignore_signs && coins.ignore_signs then some 100 else none
    speed_diff_percent :=
      if en_overspeed && coins.overspeed then some (-20) else none }

/-- TrafficGenerator.set_aggressive_behavior_all: the same enable flags,
independently re-rolled per vehicle (coinsFor gives each vehicle id its
coin tosses). -/
def set_aggressive_behavior_all (coinsFor : Nat → Coins) (vehicles : List Nat)
    (en_lane_change en_ignore_light en_ignore_signs en_overspeed : Bool) :
    List AppliedEffects :=
  vehicles.map fun v =>
    set_aggressive_behavior (coinsFor v) en_lane_change en_ignore_light
      en_ignore_signs en_overspeed

/-- The behavior mask main (scenario.py) passes to
set_aggressive_behavior_all: none when the vehicle spawn phase is skipped
(congestion scenario or the congestion flag) or when the scenario has no
mask of its own; the aggression override takes priority over the per
scenario branches. -/
def scenarioBehaviorMask (scen : ScenarioKind) (aggression congestionFlag : Bool) :
    Option BehaviorMask :=
  if scen = ScenarioKind.congestion ∨ congestionFlag then none
  else if aggression then
    some { en_lane_change := true, en_ignore_light := true
           en_ignore_signs := true, en_overspeed := true }
  else if scen = ScenarioKind.overspeeding then
    some { en_lane_change := true, en_ignore_light := false
           en_ignore_signs := false, en_overspeed := true }
  else if scen = ScenarioKind.distracted then
    some { en_lane_change := false, en_ignore_light := true
           en_ignore_signs := true, en_overspeed := false }
  else none

/-- The weather initialization block of main (scenario.py): the night
scenario applies clear weather and night time regardless of the requested
weather and time arguments; every other scenario applies the request. -/
def scenarioWeatherInit (scen : ScenarioKind) (argWeather : WeatherType)
    (argTime : TimeOfDay) (m : WeatherManager) : WeatherManager :=
  if scen = ScenarioKind.night then
    ((m.set_weather (WeatherTypeInput.valid WeatherType.CLEAR)).state.set_time_of_day
      (TimeOfDayInput.valid TimeOfDay.NIGHT)).state
  else
    ((m.set_weather (WeatherTypeInput.valid argWeather)).state.set_time_of_day
      (TimeOfDayInput.valid argTime)).state

/-- The congestion-injection state of a TrafficGenerator (traffic.py):
alternation flag, spawn delay, tick counter and the vehicle id registry. -/
structure CongestionState where
  alt : Bool
  spawn_delay : Nat
  counter : Nat
  vehicles_list : List Nat
deriving DecidableEq, Repr

/-- What one tick observes from the outside world: the current live vehicle
count reported by the world, and the actor id try_spawn_actor would return
this tick, when an attempt is made (none models a failed spawn). -/
structure TickEnv where
  n_vehicles : Nat
  spawn_result : Option Nat
deriving DecidableEq, Repr

/-- TrafficGenerator.__init__ congestion fields: alt = False,
spawn_delay = 20, counter = spawn_delay, empty registry. -/
def congestionInit : CongestionState :=
  { alt := false, spawn_delay := 20, counter := 20, vehicles_list := [] }

/-- TrafficGenerator.spawn_congestion_vehicle: when the counter is zero and
the live vehicle count is below 200, attempt a spawn; on success flip alt,
append the id and return the vehicle (the counter is left untouched by the
early return); on failure reset the counter to spawn_delay. Otherwise
decrement the counter, floored at zero. Returns the post state and the
returned vehicle, if any. -/
def spawn_congestion_vehicle (s : CongestionState) (env : TickEnv) :
    CongestionState × Option Nat :=
  if s.counter = 0 ∧ env.n_vehicles < 200 then
    match env.spawn_result with
    | some vid =>
        ({ s with alt := !s.alt, vehicles_list := s.vehicles_list ++ [vid] }, some vid)
    | none => ({ s with counter := s.spawn_delay }, none)
  else
    ({ s with counter := s.counter - (if s.counter > 0 then 1 else 0) }, none)

/-- Run spawn_congestion_vehicle once per tick, collecting the per-tick
returned vehicle. -/
def runCongestion (s : CongestionState) : List TickEnv → List (Option Nat)
  | [] => []
  | e :: es =>
      (spawn_congestion_vehicle s e).2 :: runCongestion (spawn_congestion_vehicle s e).1 es

/-- Run spawn_congestion_vehicle once per tick, returning the final state. -/
def runCongestionState (s : CongestionState) : List TickEnv → CongestionState
  | [] => s
  | e :: es => runCongestionState (spawn_congestion_vehicle s e).1 es

/-- The value of alt at each successful spawn of a run, in tick order (the
value in force when the spawn happens, before the flip). -/
def spawnAlts (s : CongestionState) : List TickEnv → List Bool
  | [] => []
  | e :: es =>
      if ((spawn_congestion_vehicle s e).2).isSome then
        s.alt :: spawnAlts (spawn_congestion_vehicle s e).1 es
      else
        spawnAlts (spawn_congestion_vehicle s e).1 es

/-- Result of TrafficGenerator.spawn_vehicles: whether the clamp warning was
logged, the clamped self.n_vehicles, the batch submitted (as indices into
the shuffled spawn point list) and the final vehicle id registry. -/
structure SpawnVehiclesResult where
  warned : Bool
  n_vehicles : Nat
  batch : List Nat
  vehicles_list : List Nat
deriving DecidableEq, Repr

/-- TrafficGenerator.spawn_vehicles (traffic.py): with requested count N and
P spawn points, warn and clamp self.n_vehicles to P when N exceeds P; the
batch loop enumerates the spawn points and breaks once the index reaches
args.number_of_vehicles (the unclamped N); each batch item yields a
response, outcome i giving the actor id of item i on success and none on
failure; successes are appended to the registry in submission order,
failures are logged and excluded. The registry is empty at entry (the
orchestrator calls this at most once, before any congestion spawning). -/
def spawn_vehicles (n_requested n_spawn_points : Nat)
    (outcome : Nat → Option Nat) : SpawnVehiclesResult :=
  let warned := decide (n_requested > n_spawn_points)
  let clamped := if n_requested > n_spawn_points then n_spawn_points else n_requested
  let batch := (List.range n_spawn_points).takeWhile fun n => decide (n < n_requested)
  { warned := warned
    n_vehicles := clamped
    batch := batch
    vehicles_list := batch.filterMap outcome }

/-- The number of failed items of the spawn_vehicles batch. -/
def spawnVehiclesFailures (n_requested n_spawn_points : Nat)
    (outcome : Nat → Option Nat) : Nat :=
  ((spawn_vehicles n_requested n_spawn_points outcome).batch.filter
    fun i => (outcome i).isNone).length

/-- One entry of TrafficGenerator.walkers_list: the dict with the body actor
id under key id and, when the controller spawn succeeded, the controller
actor id under key con. -/
structure WalkerEntry where
  id : Nat
  con : Option Nat
deriving DecidableEq, Repr

/-- Phase 2 of spawn_walkers: one batch item per sampled spawn point; each
success appends a body-only dict to walkers_list, each failure is logged and
skipped. -/
def spawn_walkers_bodies (bodyResults : List (Option Nat)) : List WalkerEntry :=
  bodyResults.filterMap fun r => r.map fun i => { id := i, con := none }

/-- Phase 3 of spawn_walkers: one controller batch item per walkers_list
entry; result i on success stores the controller id under key con of entry
i, on failure the error is logged and the entry keeps no con key. -/
def spawn_walkers_controllers (walkers : List WalkerEntry)
    (conOutcome : Nat → Option Nat) : List WalkerEntry :=
  walkers.enum.map fun p => { p.2 with con := conOutcome p.1 }

/-- Phase 4 of spawn_walkers: for each entry in order, append its con value
then its id value to combined_walker_ids; reading the con key of a body-only
entry raises KeyError, ending the loop with the ids appended so far. Returns
the appended ids and whether KeyError was raised. -/
def combine_walker_ids : List WalkerEntry → List Nat × Bool
  | [] => ([], false)
  | w :: ws =>
      match w.con with
      | none => ([], true)
      | some c =>
          let rest := combine_walker_ids ws
          (c :: w.id :: rest.1, rest.2)

/-- Result of TrafficGenerator.spawn_walkers up to the combine step:
walkers_list after phases 2 and 3, combined_walker_ids as far as phase 4
got, and whether phase 4 raised KeyError. -/
structure SpawnWalkersResult where
  walkers_list : List WalkerEntry
  combined_walker_ids : List Nat
  keyError : Bool
deriving DecidableEq, Repr

/-- TrafficGenerator.spawn_walkers (traffic.py), phases 2 to 4, parameterized
by the per-item batch outcomes of the two apply_batch_sync calls. -/
def spawn_walkers (bodyResults : List (Option Nat))
    (conOutcome : Nat → Option Nat) : SpawnWalkersResult :=
  let walkers := spawn_walkers_controllers (spawn_walkers_bodies bodyResults) conOutcome
  let comb := combine_walker_ids walkers
  { walkers_list := walkers
    combined_walker_ids := comb.1
    keyError := comb.2 }

/-- The body batch of the C2 example run: 10 sampled locations, all 10 body
spawns succeed with actor ids 1 to 10. -/
def exampleBodyResults : List (Option Nat) :=
  (List.range 10).map fun i => some (i + 1)

/-- The controller batch of the C2 example run: items 2, 5 and 7 fail, the
other 7 succeed with actor ids 100 + index. -/
def exampleConOutcome : Nat → Option Nat := fun i =>
  if i = 2 ∨ i = 5 ∨ i = 7 then none else some (100 + i)

/-- The weather-derived light bits of the specification: fog and low beam
for foggy, low beam only for rainy, nothing for clear, cloudy, unset or
unrecognized weather. Stated from the spec wording, to be compared with
set_car_lights. -/
def weatherLightBits : Option WeatherTypeInput → Nat
  | some (WeatherTypeInput.valid WeatherType.FOGGY) =>
      VehicleLightFog ||| VehicleLightLowBeam
  | some (WeatherTypeInput.valid WeatherType.RAINY) => VehicleLightLowBeam
  | _ => 0

theorem nat_and_or_self (m b : Nat) : m &&& (m ||| b) = m := by
  apply Nat.eq_of_testBit_eq
  intro i
  simp [Nat.testBit_land, Nat.testBit_lor]
  cases m.testBit i <;> simp

theorem takeWhile_range'_lt (N : Nat) :
    ∀ (n s : Nat), (List.range' s n).takeWhile (fun k => decide (k < N)) =
      List.range' s (min (N - s) n) := by
  intro n
  induction n with
  | zero => intro s; simp
  | succ n ih =>
      intro s
      rw [List.range'_succ]
      by_cases h : s < N
      · have h2 : min (N - s) (n + 1) = min (N - (s + 1)) n + 1 := by omega
        rw [h2, List.range'_succ, List.takeWhile_cons]
        simp [h, ih (s + 1)]
      · have h2 : min (N - s) (n + 1) = 0 := by omega
        rw [h2, List.takeWhile_cons]
        simp [h]

theorem takeWhile_range_lt (N p : Nat) :
    (List.range p).takeWhile (fun k => decide (k < N)) = List.range (min N p) := by
  rw [List.range_eq_range', List.range_eq_range', takeWhile_range'_lt]
  simp

theorem filterMap_filter_none_length (f : Nat → Option Nat) :
    ∀ (l : List Nat),
      (l.filterMap f).length + (l.filter fun i => (f i).isNone).length = l.length := by
  intro l
  induction l with
  | nil => simp
  | cons a l ih =>
      cases h : f a with
      | none => simp [List.filterMap_cons, List.filter_cons, h]; omega
      | some b => simp [List.filterMap_cons, List.filter_cons, h]; omega

theorem alt_after_tick (s : CongestionState) (e : TickEnv) :
    (spawn_congestion_vehicle s e).1.alt =
      if ((spawn_congestion_vehicle s e).2).isSome then !s.alt else s.alt := by
  unfold spawn_congestion_vehicle
  split
  · cases e.spawn_result <;> simp
  · simp

theorem spawnAlts_head (s : CongestionState) (es : List TickEnv) (b : Bool) :
    (spawnAlts s es).head? = some b → b = s.alt := by
  induction es generalizing s with
  | nil => simp [spawnAlts]
  | cons e es ih =>
      intro h
      rw [spawnAlts] at h
      by_cases hs : ((spawn_congestion_vehicle s e).2).isSome
      · rw [if_pos hs] at h
        simp at h
        exact h.symm
      · rw [if_neg hs] at h
        have h2 := ih (spawn_congestion_vehicle s e).1 h
        rw [alt_after_tick, if_neg hs] at h2
        exact h2

theorem spawnAlts_chain (s : CongestionState) (es : List TickEnv) :
    List.Chain' (fun a b => a ≠ b) (spawnAlts s es) := by
  induction es generalizing s with
  | nil => simp [spawnAlts]
  | cons e es ih =>
      rw [spawnAlts]
      by_cases hs : ((spawn_congestion_vehicle s e).2).isSome
      · rw [if_pos hs]
        rw [List.chain'_cons']
        refine ⟨?_, ih _⟩
        intro b hb
        have hb2 := spawnAlts_head _ _ _ hb
        rw [alt_after_tick, if_pos hs] at hb2
        subst hb2
        simp
      · rw [if_neg hs]
        exact ih _

/-- Claim C1 (code bug): evaluation of spawn_congestion_vehicle on the
failing input. From the initial state (counter 20) with the live vehicle
population always 0 and every spawn attempt succeeding, the first 20 ticks
only decrement the counter, and then ticks 21 and 22 both spawn
successfully: the early return on success skips the counter reset, leaving
the counter at 0 after the first success, so successful spawns happen on
consecutive ticks, contrary to the claim that the counter is reset to the
20-tick delay on every successful spawn. -/
theorem congestion_consecutive_spawns_eval :
    runCongestion congestionInit
        (List.replicate 22 { n_vehicles := 0, spawn_result := some 1 }) =
      List.replicate 20 none ++ [some 1, some 1]
    ∧ (runCongestionState congestionInit
        (List.replicate 21 { n_vehicles := 0, spawn_result := some 1 })).counter = 0 := by
  constructor
  · rfl
  · rfl

/-- Claim C2 (code bug): evaluation of spawn_walkers on the failing input.
With 10 pedestrian bodies spawned (ids 1 to 10) and the controller batch
failing for entries 2, 5 and 7, the combine step raises KeyError at the
first body-only entry: only 4 ids were appended to combined_walker_ids
instead of the 17 (10 bodies and 7 controllers) the claim promises, and an
exception is raised rather than tolerated. -/
theorem spawn_walkers_keyerror_eval :
    (spawn_walkers exampleBodyResults exampleConOutcome).keyError = true
    ∧ (spawn_walkers exampleBodyResults exampleConOutcome).combined_walker_ids =
        [100, 1, 101, 2]
    ∧ (spawn_walkers exampleBodyResults exampleConOutcome).walkers_list.length = 10 := by
  refine ⟨rfl, rfl, rfl⟩

/-- Claim C3 counterexample: for the overspeeding scenario without the
aggression override, the mask main passes has the lane-change trait
enabled, and with an all-true coin draw the forced lane change fires — the
claim that the applied mask is overspeed-only (lane change disabled) is
false. -/
theorem overspeeding_lane_change_fires :
    scenarioBehaviorMask ScenarioKind.overspeeding false false =
      some { en_lane_change := true, en_ignore_light := false
             en_ignore_signs := false, en_overspeed := true }
    ∧ (set_aggressive_behavior
        { lane_change := true, ignore_light := true
          ignore_signs := true, overspeed := true }
        true false false true).forced_lane_change = true := by
  refine ⟨rfl, rfl⟩

/-- Claim C3 amended: for the overspeeding scenario without the aggression
override, the behavior mask applied (independently re-rolled) to every
vehicle in the registry is lane-change and overspeed: the ignore-lights and
ignore-signs traits are disabled, while the forced lane change fires on its
coin and the -20 percent speed-differential trait fires on its coin. -/
theorem overspeeding_mask_amended (c : Coins) (coinsFor : Nat → Coins)
    (vehicles : List Nat) :
    scenarioBehaviorMask ScenarioKind.overspeeding false false =
      some { en_lane_change := true, en_ignore_light := false
             en_ignore_signs := false, en_overspeed := true }
    ∧ (set_aggressive_behavior c true false false true).ignore_lights_percent = none
    ∧ (set_aggressive_behavior c true false false true).ignore_signs_percent = none
    ∧ (set_aggressive_behavior c true false false true).speed_diff_percent =
        (if c.overspeed then some (-20) else none)
    ∧ (set_aggressive_behavior c true false false true).forced_lane_change =
        c.lane_change
    ∧ set_aggressive_behavior_all coinsFor vehicles true false false true =
        vehicles.map fun v => set_aggressive_behavior (coinsFor v) true false false true := by
  refine ⟨rfl, ?_, ?_, ?_, ?_, rfl⟩ <;> simp [set_aggressive_behavior]

/-- Claim C4 (code bug): evaluation of the re-entrant sequence
set_weather(FOGGY); set_time_of_day(NIGHT) on a fresh manager. After one
round the composed fog density is 60, but after two rounds it is 80 and
after three rounds 100: set_weather aliases the foggy preset object instead
of copying it, so the +20 night offset mutates the preset and accumulates
across calls, contrary to the claim that the density is always 60. -/
theorem foggy_night_fog_accumulates :
    (foggyNightIter sampleManager 1).currentFogDensity = some 60
    ∧ (foggyNightIter sampleManager 2).currentFogDensity = some 80
    ∧ (foggyNightIter sampleManager 3).currentFogDensity = some 100 := by
  refine ⟨rfl, rfl, rfl⟩

/-- Claim C5: for every requested vehicle count N and spawn point count P,
spawn_vehicles warns exactly when N exceeds P, clamps the attempted count
to min(N, P) (the submitted batch has exactly min(N, P) items), and the
final registry size is min(N, P) minus the number of failed batch items, in
particular at most min(N, P). -/
theorem spawn_vehicles_clamp_registry (N P : Nat) (outcome : Nat → Option Nat) :
    (spawn_vehicles N P outcome).warned = decide (N > P)
    ∧ (spawn_vehicles N P outcome).n_vehicles = min N P
    ∧ (spawn_vehicles N P outcome).batch.length = min N P
    ∧ (spawn_vehicles N P outcome).vehicles_list.length +
        spawnVehiclesFailures N P outcome = min N P
    ∧ (spawn_vehicles N P outcome).vehicles_list.length =
        min N P - spawnVehiclesFailures N P outcome
    ∧ (spawn_vehicles N P outcome).vehicles_list.length ≤ min N P := by
  have hb : (spawn_vehicles N P outcome).batch = List.range (min N P) := by
    simp only [spawn_vehicles]
    exact takeWhile_range_lt N P
  have hv : (spawn_vehicles N P outcome).vehicles_list =
      (List.range (min N P)).filterMap outcome := by
    simp only [spawn_vehicles] at hb ⊢
    rw [hb]
  have hsplit := filterMap_filter_none_length outcome (List.range (min N P))
  rw [List.length_range] at hsplit
  have hfail : spawnVehiclesFailures N P outcome =
      ((List.range (min N P)).filter fun i => (outcome i).isNone).length := by
    rw [spawnVehiclesFailures, hb]
  refine ⟨rfl, ?_, ?_, ?_, ?_, ?_⟩
  · simp only [spawn_vehicles]
    split <;> omega
  · rw [hb, List.length_range]
  · rw [hv, hfail]
    exact hsplit
  · rw [hv, hfail]
    omega
  · rw [hv]
    omega

/-- Claim C6: calling set_time_of_day while no weather has been set
(current_weather is None) is a logged no-op: exactly one error line is
logged, no exception is raised, and the whole manager state — weather type,
time of day and all composed parameter slots — is left unchanged. -/
theorem set_time_of_day_unset_noop (m : WeatherManager) (t : TimeOfDayInput)
    (h : m.current_weather = none) :
    (m.set_time_of_day t).state = m
    ∧ (m.set_time_of_day t).exn = none
    ∧ (m.set_time_of_day t).logs =
        [LogMsg.error "Set weather before setting time of day"] := by
  simp [WeatherManager.set_time_of_day, h]

/-- Witness for claim C6 at a concrete input: a freshly constructed manager
over the sample presets. -/
theorem set_time_of_day_unset_noop_witness :
    (sampleManager.set_time_of_day (TimeOfDayInput.valid TimeOfDay.NOON)).state =
        sampleManager
    ∧ (sampleManager.set_time_of_day (TimeOfDayInput.valid TimeOfDay.NOON)).exn = none
    ∧ (sampleManager.set_time_of_day (TimeOfDayInput.valid TimeOfDay.NOON)).logs =
        [LogMsg.error "Set weather before setting time of day"] :=
  set_time_of_day_unset_noop sampleManager (TimeOfDayInput.valid TimeOfDay.NOON) rfl

/-- Claim C7: for every tracked vehicle and every prior light mask,
set_car_lights only ORs the weather-derived bits into the mask — the result
is exactly the old mask OR the weather bits (fog and low beam for foggy,
low beam for rainy, nothing otherwise), and every bit set before the call
is still set after it. -/
theorem set_car_lights_preserves_bits (m : WeatherManager) (mask : Nat) :
    mask &&& m.set_car_lights mask = mask
    ∧ m.set_car_lights mask = mask ||| weatherLightBits m.weather_type := by
  rcases hw : m.weather_type with _ | wt
  · constructor
    · simp [WeatherManager.set_car_lights, hw]
    · simp [WeatherManager.set_car_lights, weatherLightBits, hw]
  · rcases wt with w | s
    · cases w <;>
        refine ⟨?_, ?_⟩ <;>
        simp [WeatherManager.set_car_lights, weatherLightBits, hw, nat_and_or_self]
    · constructor
      · simp [WeatherManager.set_car_lights, hw]
      · simp [WeatherManager.set_car_lights, weatherLightBits, hw]

/-- Claim C8: the congestion alternation flag flips if and only if a spawn
succeeds — over any run, the alt value in force at consecutive successful
spawns always differs (the spawnAlts sequence is alternating), a tick
returns a vehicle exactly when it flipped alt, and a failed spawn attempt
(counter zero, population below cap, no actor returned) resets the counter
to the delay while leaving alt and the registry unchanged. -/
theorem congestion_alt_flips_iff_success (s : CongestionState)
    (es : List TickEnv) (e : TickEnv) (n : Nat) :
    List.Chain' (fun a b => a ≠ b) (spawnAlts s es)
    ∧ ((spawn_congestion_vehicle s e).2.isSome = true ↔
        (spawn_congestion_vehicle s e).1.alt = !s.alt)
    ∧ (s.counter = 0 → n < 200 →
        spawn_congestion_vehicle s { n_vehicles := n, spawn_result := none } =
          ({ s with counter := s.spawn_delay }, none)) := by
  refine ⟨spawnAlts_chain s es, ?_, ?_⟩
  · rw [alt_after_tick]
    by_cases hs : ((spawn_congestion_vehicle s e).2).isSome
    · simp [hs]
    · simp [hs]
  · intro h1 h2
    simp [spawn_congestion_vehicle, h1, h2]

/-- Witness for claim C8 at concrete inputs: a ready injector state, a
two-tick all-success run, one success tick and one failure tick. -/
theorem congestion_alt_flips_iff_success_witness :
    List.Chain' (fun a b => a ≠ b)
      (spawnAlts { alt := false, spawn_delay := 20, counter := 0, vehicles_list := [] }
        [{ n_vehicles := 0, spawn_result := some 1 },
         { n_vehicles := 0, spawn_result := some 2 }])
    ∧ ((spawn_congestion_vehicle
          { alt := false, spawn_delay := 20, counter := 0, vehicles_list := [] }
          { n_vehicles := 0, spawn_result := some 5 }).2.isSome = true ↔
        (spawn_congestion_vehicle
          { alt := false, spawn_delay := 20, counter := 0, vehicles_list := [] }
          { n_vehicles := 0, spawn_result := some 5 }).1.alt = !false)
    ∧ spawn_congestion_vehicle
        { alt := false, spawn_delay := 20, counter := 0, vehicles_list := [] }
        { n_vehicles := 0, spawn_result := none } =
          ({ alt := false, spawn_delay := 20, counter := 20, vehicles_list := [] }, none) := by
  have h := congestion_alt_flips_iff_success
    { alt := false, spawn_delay := 20, counter := 0, vehicles_list := [] }
    [{ n_vehicles := 0, spawn_result := some 1 },
     { n_vehicles := 0, spawn_result := some 2 }]
    { n_vehicles := 0, spawn_result := some 5 } 0
  exact ⟨h.1, h.2.1, h.2.2 rfl (by decide)⟩

/-- Claim C9: when the scenario is night, the weather initialization of
main applies clear weather with night time of day whatever the requested
weather and time arguments are — the result does not depend on the request,
equals the clear plus night call sequence, and leaves the manager with
weather type CLEAR, time NIGHT and a composed sun altitude of -90. -/
theorem night_scenario_forces_clear_night (m : WeatherManager)
    (w w2 : WeatherType) (t t2 : TimeOfDay) :
    scenarioWeatherInit ScenarioKind.night w t m =
        scenarioWeatherInit ScenarioKind.night w2 t2 m
    ∧ scenarioWeatherInit ScenarioKind.night w t m =
        ((m.set_weather (WeatherTypeInput.valid WeatherType.CLEAR)).state.set_time_of_day
          (TimeOfDayInput.valid TimeOfDay.NIGHT)).state
    ∧ (scenarioWeatherInit ScenarioKind.night w t m).weather_type =
        some (WeatherTypeInput.valid WeatherType.CLEAR)
    ∧ (scenarioWeatherInit ScenarioKind.night w t m).time_of_day =
        some (TimeOfDayInput.valid TimeOfDay.NIGHT)
    ∧ (scenarioWeatherInit ScenarioKind.night w t m).currentSunAltitude = some (-90) := by
  refine ⟨rfl, rfl, rfl, rfl, rfl⟩

/-- Claim C10: set_weather stores the given weather_type before validating
it — after the ValueError raised for an unrecognized value, the stored
weather_type field holds the invalid value while current_weather (both the
reference and the parameters it denotes) is unchanged; likewise
set_time_of_day, once a weather is set, stores the invalid time_of_day
value before raising and mutates no parameters. -/
theorem invalid_enum_stores_before_raise (m : WeatherManager) (s r : String) :
    (m.set_weather (WeatherTypeInput.invalid s)).exn =
        some ("Invalid weather type " ++ s)
    ∧ (m.set_weather (WeatherTypeInput.invalid s)).state.weather_type =
        some (WeatherTypeInput.invalid s)
    ∧ (m.set_weather (WeatherTypeInput.invalid s)).state.current_weather =
        m.current_weather
    ∧ (m.set_weather (WeatherTypeInput.invalid s)).state.currentParams =
        m.currentParams
    ∧ (m.current_weather ≠ none →
        (m.set_time_of_day (TimeOfDayInput.invalid r)).exn =
            some ("Invalid time of day " ++ r)
        ∧ (m.set_time_of_day (TimeOfDayInput.invalid r)).state.time_of_day =
            some (TimeOfDayInput.invalid r)
        ∧ (m.set_time_of_day (TimeOfDayInput.invalid r)).state.currentParams =
            m.currentParams) := by
  refine ⟨rfl, rfl, rfl, ?_, ?_⟩
  · rcases hcw : m.current_weather with _ | w
    · simp [WeatherManager.set_weather, WeatherManager.currentParams, hcw]
    · cases w <;> simp [WeatherManager.set_weather, WeatherManager.currentParams, hcw]
  · intro hne
    rcases hcw : m.current_weather with _ | w
    · exact absurd hcw hne
    · cases w <;>
        simp [WeatherManager.set_time_of_day, WeatherManager.currentParams, hcw]

/-- Witness for claim C10 at concrete inputs: a manager with clear weather
already set, an invalid weather argument and an invalid time argument. -/
theorem invalid_enum_stores_before_raise_witness :
    ((sampleManager.set_weather (WeatherTypeInput.valid WeatherType.CLEAR)).state.set_weather
        (WeatherTypeInput.invalid "5")).exn = some ("Invalid weather type " ++ "5")
    ∧ ((sampleManager.set_weather (WeatherTypeInput.valid WeatherType.CLEAR)).state.set_weather
        (WeatherTypeInput.invalid "5")).state.weather_type =
          some (WeatherTypeInput.invalid "5")
    ∧ ((sampleManager.set_weather (WeatherTypeInput.valid WeatherType.CLEAR)).state.set_weather
        (WeatherTypeInput.invalid "5")).state.current_weather =
          (sampleManager.set_weather (WeatherTypeInput.valid WeatherType.CLEAR)).state.current_weather
    ∧ ((sampleManager.set_weather (WeatherTypeInput.valid WeatherType.CLEAR)).state.set_weather
        (WeatherTypeInput.invalid "5")).state.currentParams =
          (sampleManager.set_weather (WeatherTypeInput.valid WeatherType.CLEAR)).state.currentParams
    ∧ (((sampleManager.set_weather (WeatherTypeInput.valid WeatherType.CLEAR)).state.set_time_of_day
          (TimeOfDayInput.invalid "x")).exn = some ("Invalid time of day " ++ "x")
        ∧ ((sampleManager.set_weather (WeatherTypeInput.valid WeatherType.CLEAR)).state.set_time_of_day
            (TimeOfDayInput.invalid "x")).state.time_of_day =
              some (TimeOfDayInput.invalid "x")
        ∧ ((sampleManager.set_weather (WeatherTypeInput.valid WeatherType.CLEAR)).state.set_time_of_day
            (TimeOfDayInput.invalid "x")).state.currentParams =
              (sampleManager.set_weather (WeatherTypeInput.valid WeatherType.CLEAR)).state.currentParams) := by
  have h := invalid_enum_stores_before_raise
    (sampleManager.set_weather (WeatherTypeInput.valid WeatherType.CLEAR)).state "5" "x"
  exact ⟨h.1, h.2.1, h.2.2.1, h.2.2.2.1, h.2.2.2.2 (by decide)⟩
